import Mathlib

/-!
Verification of the language-learning backend (src/main.py, src/schemas.py).

The HTTP handlers of `main.py` are embedded as pure Lean functions over an
explicit store state.  The repository's `database` module (imported by
`main.py` as `from database import db, create_document, get_documents`) is not
part of the source tree, so its collection operations are modelled from the
specification, section 4.3 (insert_one / find / find_one / count_documents /
insert_many as thin value-semantic pass-through operations on named
collections).  Machine-level details (HTTP plumbing, pydantic envelope) are out
of scope per the specification; request bodies are modelled as already-decoded
documents and handler outcomes as `Except Err`.
-/

namespace LangBackend

/-- A dynamically typed document value (the subset of BSON/JSON values this
backend actually stores: strings, integers, booleans, null, internal object
ids, and lists of strings for MCQ options). -/
inductive Val where
  | str (s : String)
  | int (n : Int)
  | bool (b : Bool)
  | null
  | oid (n : Nat)
  | strList (l : List String)
deriving DecidableEq, Repr

/-- A document: a finite map from field names to values, modelled as an
association list (documents created through this API never repeat a key). -/
abbrev Doc := List (String × Val)

/-- Dictionary lookup on a document (first occurrence of the key). -/
def dGet : Doc → String → Option Val
  | [], _ => none
  | (k, v) :: rest, key => if k = key then some v else dGet rest key

/-- Whether a document satisfies an equality filter (every key/value pair of
the filter is present in the document), as used by find / find_one /
count_documents. -/
def docMatches (d : Doc) (filt : Doc) : Bool :=
  filt.all (fun kv => decide (dGet d kv.1 = some kv.2))

/-- Modelled from the spec: section 4.3 `find(collection, filter?)` — returns
all documents matching an equality filter, in store order. -/
def findAll (docs : List Doc) (filt : Doc) : List Doc :=
  docs.filter (fun d => docMatches d filt)

/-- Modelled from the spec: section 4.3 `find_one(collection, filter)` —
first matching document or absent. -/
def findOne (docs : List Doc) (filt : Doc) : Option Doc :=
  (findAll docs filt).head?

/-- Modelled from the spec: section 4.3 `count(collection, filter)`. -/
def countDocs (docs : List Doc) (filt : Doc) : Nat :=
  (findAll docs filt).length

/-- Modelled from the spec: section 4.3 `insert(collection, doc) -> id` —
inserts one document, which receives the store-assigned internal identifier
under the `_id` key; the new id is the store's next fresh id. -/
def insertDoc (docs : List Doc) (newId : Nat) (d : Doc) : List Doc :=
  docs ++ [d ++ [("_id", Val.oid newId)]]

/-- The document store: one collection per entity plus the next fresh
internal identifier. -/
structure Store where
  user : List Doc
  course : List Doc
  lesson : List Doc
  exercise : List Doc
  nextId : Nat
deriving DecidableEq, Repr

/-- The store with no documents. -/
def emptyStore : Store := ⟨[], [], [], [], 0⟩

/-- Hexadecimal rendering of an internal identifier, padded to the 24
characters of the store's id format (`str(ObjectId)`). -/
def oidStr (n : Nat) : String :=
  let ds := Nat.toDigits 16 n
  ⟨List.replicate (24 - ds.length) '0' ++ ds⟩

/-- Value of one hexadecimal digit, either case; `none` on non-hex input. -/
def hexVal (c : Char) : Option Nat :=
  if '0' ≤ c ∧ c ≤ '9' then some (c.toNat - 48)
  else if 'a' ≤ c ∧ c ≤ 'f' then some (c.toNat - 87)
  else if 'A' ≤ c ∧ c ≤ 'F' then some (c.toNat - 55)
  else none

/-- Parsing of an external identifier string into an internal identifier.
Modelled from the spec: section 4.2 — a well-formed internal identifier is a
string in the store's id format (24 hexadecimal characters); anything else is
rejected. -/
def oidParse (s : String) : Option Nat :=
  if s.length = 24 then
    s.data.foldl
      (fun acc c =>
        match acc, hexVal c with
        | some a, some v => some (16 * a + v)
        | _, _ => none)
      (some 0)
  else none

/-- An HTTP error outcome (`HTTPException(status_code, detail)`). -/
structure Err where
  status : Nat
  detail : String
deriving DecidableEq, Repr

/-- Embeds the helper `oid` (main.py lines 84-88): coerce the id string,
raising 400 "Invalid id" when it is not a well-formed internal identifier. -/
def oidCoerce (s : String) : Except Err Nat :=
  match oidParse s with
  | some n => Except.ok n
  | none => Except.error ⟨400, "Invalid id"⟩

/-- Python `str()` on a stored value (only `str` values occur for `answer`
through this API; the other cases render as Python would). -/
def pyStr : Val → String
  | Val.str s => s
  | Val.int n => toString n
  | Val.bool b => if b then "True" else "False"
  | Val.null => "None"
  | Val.oid n => oidStr n
  | Val.strList l => toString l

/-- The characters Python's `str.strip()` removes (ASCII whitespace). -/
def isPyWs (c : Char) : Bool :=
  c.toNat = 32 || c.toNat = 9 || c.toNat = 10 || c.toNat = 13 ||
  c.toNat = 11 || c.toNat = 12

/-- Strip leading and trailing whitespace from a character list. -/
def stripL (l : List Char) : List Char :=
  ((l.dropWhile isPyWs).reverse.dropWhile isPyWs).reverse

/-- Python `str.strip()`. -/
def pyStrip (s : String) : String := ⟨stripL s.data⟩

/-- Python `str.lower()` (ASCII case folding, which covers every answer
string this backend stores). -/
def pyLower (s : String) : String := ⟨s.data.map Char.toLower⟩

/-- The normalization `str(x).strip().lower()` applied by `submit_answer`
(main.py line 145) to both sides of the comparison. -/
def pyNorm (s : String) : String := pyLower (pyStrip s)

/-- Request body of POST /api/answer (main.py lines 78-81). -/
structure AnswerReq where
  exercise_id : String
  answer : String
  user_id : Option String
deriving DecidableEq, Repr

/-- Response of POST /api/answer (main.py line 146): the grading verdict and
the stored answer (absent when the document has no `answer` field). -/
structure AnswerResp where
  correct : Bool
  expected : Option Val
deriving DecidableEq, Repr

/-- Embeds `submit_answer` (main.py lines 140-146): coerce the id, look the
exercise up by internal id (404 when absent), compare the normalized
submitted answer against the normalized stored answer (missing `answer`
field defaulting to the empty string), and return the verdict together with
the raw stored answer as `expected`. -/
def submit_answer (st : Store) (payload : AnswerReq) : Except Err AnswerResp := do
  let i ← oidCoerce payload.exercise_id
  match findOne st.exercise [("_id", Val.oid i)] with
  | none => Except.error ⟨404, "Exercise not found"⟩
  | some ex =>
      Except.ok
        { correct := decide (pyNorm (pyStr (Val.str payload.answer)) =
            pyNorm (pyStr ((dGet ex "answer").getD (Val.str ""))))
          expected := dGet ex "answer" }

/-- Embeds the response-shaping loop of the list endpoints (main.py lines
105-106, 117-118, 129-130): `doc["id"] = str(doc.pop("_id"))`. -/
def shapeDoc (d : Doc) : Doc :=
  (d.filter (fun kv => !(kv.1 == "_id"))) ++
    [("id", Val.str (pyStr ((dGet d "_id").getD Val.null)))]

/-- Embeds `list_courses` (main.py lines 102-107): fetch every course
document and shape each one. -/
def list_courses (st : Store) : List Doc :=
  (findAll st.course []).map shapeDoc

/-- Embeds `list_lessons` (main.py lines 114-119): fetch the lessons whose
`course_id` equals the path parameter and shape each one. -/
def list_lessons (st : Store) (course_id : String) : List Doc :=
  (findAll st.lesson [("course_id", Val.str course_id)]).map shapeDoc

/-- Embeds `list_exercises` (main.py lines 126-131): fetch the exercises
whose `lesson_id` equals the path parameter and shape each one. -/
def list_exercises (st : Store) (lesson_id : String) : List Doc :=
  (findAll st.exercise [("lesson_id", Val.str lesson_id)]).map shapeDoc

/-- Request body of POST /api/exercises (main.py lines 71-76). -/
structure CreateExerciseReq where
  lesson_id : String
  type : String
  prompt : String
  options : Option (List String)
  answer : String
deriving DecidableEq, Repr

/-- `payload.model_dump()` for CreateExerciseReq (an omitted `options` is
dumped as null). -/
def dumpExerciseReq (r : CreateExerciseReq) : Doc :=
  [("lesson_id", Val.str r.lesson_id), ("type", Val.str r.type),
   ("prompt", Val.str r.prompt),
   ("options", match r.options with
     | some l => Val.strList l
     | none => Val.null),
   ("answer", Val.str r.answer)]

/-- Embeds `create_exercise` (main.py lines 133-138): reject a `type`
outside mcq/translate with 400 "Invalid exercise type" before any store
access; otherwise insert the dumped payload and echo it back with the new
id string.  An error outcome carries no updated store: nothing is written. -/
def create_exercise (st : Store) (payload : CreateExerciseReq) :
    Except Err (Doc × Store) :=
  if payload.type ∈ ["mcq", "translate"] then
    let doc := dumpExerciseReq payload
    let st' := { st with exercise := insertDoc st.exercise st.nextId doc,
                         nextId := st.nextId + 1 }
    Except.ok ((("id", Val.str (oidStr st.nextId)) :: doc), st')
  else Except.error ⟨400, "Invalid exercise type"⟩

/-- Request body of POST /api/users (main.py lines 57-59): only `username`
and `name` are declared; pydantic ignores any other field of the body. -/
structure CreateUserReq where
  username : String
  name : Option String
deriving DecidableEq, Repr

/-- Embeds pydantic's decoding of CreateUserReq from a request body:
`username` must be a string, `name` is an optional string (absent or null
maps to none); every other field of the body is ignored. -/
def parseCreateUserReq (body : Doc) : Option CreateUserReq :=
  match dGet body "username" with
  | some (Val.str u) =>
      match dGet body "name" with
      | some (Val.str nm) => some ⟨u, some nm⟩
      | some Val.null => some ⟨u, none⟩
      | none => some ⟨u, none⟩
      | some _ => none
  | _ => none

/-- Embeds `create_user` (main.py lines 91-100): build the user document
with xp and streak fixed at 0, insert it, and return it with the new id
string prepended. -/
def create_user (st : Store) (payload : CreateUserReq) : Doc × Store :=
  let user : Doc :=
    [("username", Val.str payload.username),
     ("name", match payload.name with
       | some nm => Val.str nm
       | none => Val.null),
     ("xp", Val.int 0), ("streak", Val.int 0)]
  let st' := { st with user := insertDoc st.user st.nextId user,
                       nextId := st.nextId + 1 }
  ((("id", Val.str (oidStr st.nextId)) :: user), st')

/-- The internal identifier of a stored document (`doc["_id"]`); documents
produced by the store always carry one. -/
def getOid (d : Doc) : Nat :=
  match dGet d "_id" with
  | some (Val.oid n) => n
  | _ => 0

/-- Response of POST /api/seed (main.py line 171). -/
structure SeedResp where
  seeded : Bool
  course_id : String
  lesson_id : String
deriving DecidableEq, Repr

/-- The course fixture inserted by the seeder (main.py line 154). -/
def courseFixture : Doc :=
  [("name", Val.str "Spanish"), ("code", Val.str "es"),
   ("base_language", Val.str "en")]

/-- The lesson fixture inserted by the seeder (main.py line 160). -/
def lessonFixture (cid : Nat) : Doc :=
  [("course_id", Val.str (oidStr cid)), ("title", Val.str "Basics 1"),
   ("order", Val.int 1)]

/-- The first exercise fixture inserted by the seeder (main.py line 166). -/
def exFixture1 (lid : Nat) : Doc :=
  [("lesson_id", Val.str (oidStr lid)), ("type", Val.str "mcq"),
   ("prompt", Val.str "How do you say 'Hello' in Spanish?"),
   ("options", Val.strList ["Hola", "Adios", "Gracias"]),
   ("answer", Val.str "Hola")]

/-- The second exercise fixture inserted by the seeder (main.py line 167). -/
def exFixture2 (lid : Nat) : Doc :=
  [("lesson_id", Val.str (oidStr lid)), ("type", Val.str "translate"),
   ("prompt", Val.str "Translate: Gracias"),
   ("answer", Val.str "Thank you")]

/-- Step 1 of `seed_demo` (main.py lines 152-156): find the course with
code "es", inserting the fixture when absent; yields the course id in use. -/
def seedCourse (st : Store) : Nat × Store :=
  match findOne st.course [("code", Val.str "es")] with
  | some c => (getOid c, st)
  | none =>
      (st.nextId,
       { st with course := insertDoc st.course st.nextId courseFixture,
                 nextId := st.nextId + 1 })

/-- Step 2 of `seed_demo` (main.py lines 158-162): find the lesson with
this course id and order 1, inserting the fixture when absent. -/
def seedLesson (cid : Nat) (st : Store) : Nat × Store :=
  match findOne st.lesson
      [("course_id", Val.str (oidStr cid)), ("order", Val.int 1)] with
  | some l => (getOid l, st)
  | none =>
      (st.nextId,
       { st with lesson := insertDoc st.lesson st.nextId (lessonFixture cid),
                 nextId := st.nextId + 1 })

/-- Step 3 of `seed_demo` (main.py lines 164-169): when no exercise carries
this lesson id, bulk-insert the two fixtures. -/
def seedExercises (lid : Nat) (st : Store) : Store :=
  if countDocs st.exercise [("lesson_id", Val.str (oidStr lid))] = 0 then
    { st with
      exercise :=
        insertDoc (insertDoc st.exercise st.nextId (exFixture1 lid))
          (st.nextId + 1) (exFixture2 lid),
      nextId := st.nextId + 2 }
  else st

/-- Embeds `seed_demo` (main.py lines 149-171): the three check-then-insert
steps followed by the unconditional response. -/
def seed_demo (st : Store) : SeedResp × Store :=
  let p1 := seedCourse st
  let p2 := seedLesson p1.1 p1.2
  let st3 := seedExercises p2.1 p2.2
  (⟨true, oidStr p1.1, oidStr p2.1⟩, st3)

/-- The store handle of the diagnostics endpoint: its `name` attribute when
present, and the outcome of `list_collection_names()` (either the names or
the text of the raised error). -/
structure DbHandle where
  name : Option String
  listCollectionNames : Except String (List String)

/-- Environment of the diagnostics endpoint: the module-level store handle
(None when initialization failed) and the two environment configuration
values (`os.getenv` yields none when unset; an empty string is falsy). -/
structure DiagEnv where
  db : Option DbHandle
  database_url_env : Option String
  database_name_env : Option String

/-- Python truthiness of an `os.getenv` result. -/
def envTruthy : Option String → Bool
  | some s => !(s == "")
  | none => false

/-- Truncation `str(e)[:50]` (Python slices by character). -/
def strTake (s : String) (n : Nat) : String := ⟨s.data.take n⟩

/-- Response of GET /test (main.py lines 26-33). -/
structure DiagResp where
  backend : String
  database : String
  database_url : Val
  database_name : Val
  connection_status : String
  collections : List String
deriving DecidableEq, Repr

/-- Embeds `test_database` (main.py lines 24-54): a total function — every
store error is caught, so no exception escapes.  The sequence of field
assignments mirrors the code, including the final unconditional overwrite of
the two environment fields. -/
def test_database (e : DiagEnv) : DiagResp :=
  let r : DiagResp :=
    { backend := "✅ Running", database := "❌ Not Available",
      database_url := Val.null, database_name := Val.null,
      connection_status := "Not Connected", collections := [] }
  let r :=
    match e.db with
    | some h =>
        let r := { r with database := "✅ Available",
                          database_url := Val.str "✅ Configured",
                          database_name := match h.name with
                            | some n => Val.str n
                            | none => Val.str "✅ Connected",
                          connection_status := "Connected" }
        match h.listCollectionNames with
        | Except.ok names =>
            { r with collections := names.take 10,
                     database := "✅ Connected & Working" }
        | Except.error msg =>
            { r with database := "⚠️  Connected but Error: " ++ strTake msg 50 }
    | none => { r with database := "⚠️  Available but not initialized" }
  { r with
    database_url :=
      Val.str (if envTruthy e.database_url_env then "✅ Set" else "❌ Not Set"),
    database_name :=
      Val.str (if envTruthy e.database_name_env then "✅ Set" else "❌ Not Set") }

/-- A well-formed stored document: it carries a store-assigned internal
identifier and no business field named `id` (no entity of schemas.py
declares one). -/
def wfDoc (d : Doc) : Prop :=
  (∃ n, dGet d "_id" = some (Val.oid n)) ∧ dGet d "id" = none

/-- The store after one seeding of the empty store (used to instantiate the
universally quantified theorems at a concrete state). -/
def demoStore : Store := (seed_demo emptyStore).2

/-- A store whose only exercise has no `answer` field. -/
def noAnswerStore : Store :=
  ⟨[], [], [], [[("prompt", Val.str "Say hi"), ("_id", Val.oid 0)]], 1⟩

/-- A stored course matching the seeder's natural key `code = "es"` while
disagreeing with the fixture on every other field. -/
def wCourse : Doc :=
  [("name", Val.str "French"), ("code", Val.str "es"),
   ("base_language", Val.str "fr"), ("_id", Val.oid 7)]

/-- A stored lesson matching the seeder's natural key (course id 7, order 1)
with a different title. -/
def wLesson : Doc :=
  [("course_id", Val.str (oidStr 7)), ("title", Val.str "Advanced"),
   ("order", Val.int 1), ("_id", Val.oid 9)]

/-- A store already holding `wCourse` and `wLesson`. -/
def wSeedStore : Store := ⟨[], [wCourse], [wLesson], [], 10⟩

/-- A user-creation body that also tries to set xp, streak and email. -/
def wUserBody : Doc :=
  [("username", Val.str "ana"), ("email", Val.str "ana@example.com"),
   ("xp", Val.int 99), ("streak", Val.int 5)]

/-- A diagnostics environment whose store handle exists but whose
`list_collection_names()` raises. -/
def wDiagEnv : DiagEnv :=
  ⟨some ⟨some "appdb", Except.error "boom"⟩, some "mongodb://h/db", none⟩

theorem char_toNat_ofNat_valid (n : Nat) (h : n.isValidChar) :
    (Char.ofNat n).toNat = n := by
  rw [Char.ofNat, dif_pos h]
  simp [Char.ofNatAux, Char.toNat, UInt32.toNat, BitVec.toNat_ofNatLt]

theorem isPyWs_toLower (c : Char) : isPyWs (Char.toLower c) = isPyWs c := by
  show isPyWs (if c.toNat ≥ 65 ∧ c.toNat ≤ 90 then Char.ofNat (c.toNat + 32)
      else c) = isPyWs c
  split
  · rename_i h
    have hv : (c.toNat + 32).isValidChar := by
      left
      omega
    have ht : (Char.ofNat (c.toNat + 32)).toNat = c.toNat + 32 :=
      char_toNat_ofNat_valid _ hv
    have h1 : isPyWs (Char.ofNat (c.toNat + 32)) = false := by
      simp [isPyWs, ht]
      omega
    have h2 : isPyWs c = false := by
      simp [isPyWs]
      omega
    rw [h1, h2]
  · rfl

theorem dropWhile_map_toLower (l : List Char) :
    (l.map Char.toLower).dropWhile isPyWs = (l.dropWhile isPyWs).map Char.toLower := by
  induction l with
  | nil => rfl
  | cons c rest ih =>
    simp only [List.map_cons, List.dropWhile_cons, isPyWs_toLower]
    by_cases h : isPyWs c
    · simp [h, ih]
    · simp [h]

theorem stripL_map_toLower (l : List Char) :
    stripL (l.map Char.toLower) = (stripL l).map Char.toLower := by
  unfold stripL
  rw [dropWhile_map_toLower, ← List.map_reverse, dropWhile_map_toLower,
    ← List.map_reverse]

theorem pyLower_pyStrip_comm (s : String) :
    pyLower (pyStrip s) = pyStrip (pyLower s) := by
  show (⟨(stripL s.data).map Char.toLower⟩ : String) = ⟨stripL (s.data.map Char.toLower)⟩
  rw [stripL_map_toLower]

theorem pyNorm_eq_of_lower_eq {a b : String} (h : pyLower a = pyLower b) :
    pyNorm a = pyNorm b := by
  unfold pyNorm
  rw [pyLower_pyStrip_comm, pyLower_pyStrip_comm, h]

theorem pyNorm_eq_of_strip_eq {a b : String} (h : pyStrip a = pyStrip b) :
    pyNorm a = pyNorm b := by
  unfold pyNorm
  rw [h]

theorem dropWhile_of_all_ws (l : List Char) (h : ∀ c ∈ l, isPyWs c = true) :
    l.dropWhile isPyWs = [] := by
  induction l with
  | nil => rfl
  | cons c rest ih =>
    rw [List.dropWhile_cons]
    simp [h c (List.mem_cons_self c rest),
      ih fun x hx => h x (List.mem_cons_of_mem c hx)]

theorem pyNorm_of_all_ws (s : String) (h : s.data.all isPyWs = true) :
    pyNorm s = "" := by
  have h' : ∀ c ∈ s.data, isPyWs c = true := fun c hc => List.all_eq_true.mp h c hc
  have h1 : stripL s.data = [] := by
    unfold stripL
    rw [dropWhile_of_all_ws s.data h']
    rfl
  show (⟨(stripL s.data).map Char.toLower⟩ : String) = ""
  rw [h1]
  rfl

theorem dGet_append_of_some {l1 : Doc} {k : String} {v : Val} (l2 : Doc)
    (h : dGet l1 k = some v) : dGet (l1 ++ l2) k = some v := by
  induction l1 with
  | nil => simp [dGet] at h
  | cons kv rest ih =>
    obtain ⟨k0, v0⟩ := kv
    rw [List.cons_append, dGet]
    rw [dGet] at h
    by_cases hk : k0 = k
    · simpa [hk] using h
    · rw [if_neg hk] at h ⊢
      exact ih h

theorem dGet_append_of_none {l1 : Doc} {k : String} (l2 : Doc)
    (h : dGet l1 k = none) : dGet (l1 ++ l2) k = dGet l2 k := by
  induction l1 with
  | nil => rfl
  | cons kv rest ih =>
    obtain ⟨k0, v0⟩ := kv
    rw [List.cons_append, dGet]
    rw [dGet] at h
    by_cases hk : k0 = k
    · simp [hk] at h
    · rw [if_neg hk] at h ⊢
      exact ih h

theorem dGet_filter_not_id {d : Doc} {k : String} (hk : ¬ k = "_id") :
    dGet (d.filter (fun kv => !(kv.1 == "_id"))) k = dGet d k := by
  induction d with
  | nil => rfl
  | cons kv rest ih =>
    obtain ⟨k0, v0⟩ := kv
    rw [List.filter_cons]
    by_cases h0 : k0 = "_id"
    · subst h0
      rw [if_neg (by simp)]
      simp only [dGet]
      rw [if_neg (fun h => hk h.symm)]
      exact ih
    · rw [if_pos (by simp [h0])]
      simp only [dGet]
      by_cases hkk : k0 = k
      · rw [if_pos hkk, if_pos hkk]
      · rw [if_neg hkk, if_neg hkk]
        exact ih

theorem dGet_filter_id (d : Doc) :
    dGet (d.filter (fun kv => !(kv.1 == "_id"))) "_id" = none := by
  induction d with
  | nil => rfl
  | cons kv rest ih =>
    obtain ⟨k0, v0⟩ := kv
    rw [List.filter_cons]
    by_cases h0 : k0 = "_id"
    · rw [if_neg (by simp [h0])]
      exact ih
    · rw [if_pos (by simp [h0])]
      simp only [dGet]
      rw [if_neg h0]
      exact ih

theorem findAll_append (xs ys : List Doc) (f : Doc) :
    findAll (xs ++ ys) f = findAll xs f ++ findAll ys f := by
  unfold findAll
  exact List.filter_append _ _

theorem countDocs_append (xs ys : List Doc) (f : Doc) :
    countDocs (xs ++ ys) f = countDocs xs f + countDocs ys f := by
  unfold countDocs
  rw [findAll_append, List.length_append]

theorem findOne_append_of_none {xs : List Doc} {f : Doc} (ys : List Doc)
    (h : findOne xs f = none) : findOne (xs ++ ys) f = findOne ys f := by
  unfold findOne at h ⊢
  rw [findAll_append]
  rw [List.head?_eq_none_iff] at h
  rw [h]
  rfl

theorem findOne_singleton_of_matches {d f : Doc} (h : docMatches d f = true) :
    findOne [d] f = some d := by
  unfold findOne findAll
  rw [List.filter_cons]
  simp [h]

/-- C1: for every stored exercise whose `answer` field holds a string and
every submitted answer, `submit_answer` succeeds with `correct = true` iff
the two strings are equal after trimming surrounding whitespace and
lower-casing; pairs differing only by case or only by surrounding
whitespace grade as correct, and `expected` is the stored answer verbatim. -/
theorem submit_answer_grading (st : Store) (eid ans : String) (uid : Option String)
    (i : Nat) (ex : Doc) (stored : String)
    (hid : oidParse eid = some i)
    (hex : findOne st.exercise [("_id", Val.oid i)] = some ex)
    (hans : dGet ex "answer" = some (Val.str stored)) :
    ∃ r : AnswerResp,
      submit_answer st ⟨eid, ans, uid⟩ = Except.ok r ∧
      (r.correct = true ↔ pyNorm ans = pyNorm stored) ∧
      r.expected = some (Val.str stored) ∧
      (pyLower ans = pyLower stored → r.correct = true) ∧
      (pyStrip ans = pyStrip stored → r.correct = true) := by
  refine ⟨⟨decide (pyNorm ans = pyNorm stored), some (Val.str stored)⟩, ?_, ?_, rfl, ?_, ?_⟩
  · simp [submit_answer, oidCoerce, Bind.bind, Except.bind, hid, hex, hans, pyStr]
  · simp
  · intro h
    simp [pyNorm_eq_of_lower_eq h]
  · intro h
    simp [pyNorm_eq_of_strip_eq h]

/-- Witness for C1: on the seeded store, submitting " HOLA " against the
stored answer "Hola" grades as correct. -/
theorem submit_answer_grading_witness :
    ∃ r : AnswerResp,
      submit_answer demoStore ⟨oidStr 2, " HOLA ", none⟩ = Except.ok r ∧
      (r.correct = true ↔ pyNorm " HOLA " = pyNorm "Hola") ∧
      r.expected = some (Val.str "Hola") ∧
      (pyLower " HOLA " = pyLower "Hola" → r.correct = true) ∧
      (pyStrip " HOLA " = pyStrip "Hola" → r.correct = true) :=
  submit_answer_grading demoStore (oidStr 2) " HOLA " none 2
    (exFixture1 1 ++ [("_id", Val.oid 2)]) "Hola" (by decide) (by decide) (by decide)

/-- C2: a malformed exercise id fails with 400 "Invalid id" on every store
(so before, and independent of, any lookup); a well-formed id with no
matching stored exercise fails with 404 "Exercise not found" for every
submitted answer (so no comparison happens). -/
theorem submit_answer_errors :
    (∀ (st : Store) (eid ans : String) (uid : Option String),
      oidParse eid = none →
      submit_answer st ⟨eid, ans, uid⟩ = Except.error ⟨400, "Invalid id"⟩) ∧
    (∀ (st : Store) (eid ans : String) (uid : Option String) (i : Nat),
      oidParse eid = some i →
      findOne st.exercise [("_id", Val.oid i)] = none →
      submit_answer st ⟨eid, ans, uid⟩ = Except.error ⟨404, "Exercise not found"⟩) := by
  constructor
  · intro st eid ans uid h
    simp [submit_answer, oidCoerce, Bind.bind, Except.bind, h]
  · intro st eid ans uid i h hnone
    simp [submit_answer, oidCoerce, Bind.bind, Except.bind, h, hnone]

/-- Witness for C2: a non-hex id yields 400 and an absent id yields 404 on
the seeded store. -/
theorem submit_answer_errors_witness :
    submit_answer demoStore ⟨"not-an-id", "x", none⟩ =
      Except.error ⟨400, "Invalid id"⟩ ∧
    submit_answer demoStore ⟨oidStr 77, "x", none⟩ =
      Except.error ⟨404, "Exercise not found"⟩ :=
  ⟨submit_answer_errors.1 demoStore "not-an-id" "x" none (by decide),
   submit_answer_errors.2 demoStore (oidStr 77) "x" none 77 (by decide) (by decide)⟩

/-- C8: when the stored exercise has no `answer` field the comparison uses
the empty string (so an empty or whitespace-only submission grades as
correct) while `expected` is the absent value, not the empty string. -/
theorem submit_answer_no_answer_field (st : Store) (eid ans : String)
    (uid : Option String) (i : Nat) (ex : Doc)
    (hid : oidParse eid = some i)
    (hex : findOne st.exercise [("_id", Val.oid i)] = some ex)
    (hans : dGet ex "answer" = none) :
    ∃ r : AnswerResp,
      submit_answer st ⟨eid, ans, uid⟩ = Except.ok r ∧
      (r.correct = true ↔ pyNorm ans = "") ∧
      r.expected = none ∧
      (ans = "" → r.correct = true) ∧
      (ans.data.all isPyWs = true → r.correct = true) := by
  refine ⟨⟨decide (pyNorm ans = ""), none⟩, ?_, ?_, rfl, ?_, ?_⟩
  · have : pyNorm "" = "" := rfl
    simp [submit_answer, oidCoerce, Bind.bind, Except.bind, hid, hex, hans, pyStr, this]
  · simp
  · intro h
    subst h
    simp
    rfl
  · intro h
    simp [pyNorm_of_all_ws ans h]

/-- Witness for C8: an answerless exercise grades a whitespace-only
submission as correct with a null `expected`. -/
theorem submit_answer_no_answer_field_witness :
    ∃ r : AnswerResp,
      submit_answer noAnswerStore ⟨oidStr 0, "   ", none⟩ = Except.ok r ∧
      (r.correct = true ↔ pyNorm "   " = "") ∧
      r.expected = none ∧
      ("   " = "" → r.correct = true) ∧
      ((String.data "   ").all isPyWs = true → r.correct = true) :=
  submit_answer_no_answer_field noAnswerStore (oidStr 0) "   " none 0
    [("prompt", Val.str "Say hi"), ("_id", Val.oid 0)] (by decide) (by decide) (by decide)

/-- C4: a `type` outside mcq/translate makes exercise creation fail with
400 "Invalid exercise type" (the error outcome carries no updated store, so
nothing is written); with a valid `type` the inserted document is
retrievable through the lesson's exercise list with all request fields
matching. -/
theorem create_exercise_type_check :
    (∀ (st : Store) (r : CreateExerciseReq),
      r.type ∉ (["mcq", "translate"] : List String) →
      create_exercise st r = Except.error ⟨400, "Invalid exercise type"⟩) ∧
    (∀ (st : Store) (r : CreateExerciseReq),
      r.type ∈ (["mcq", "translate"] : List String) →
      ∃ (resp : Doc) (st' : Store),
        create_exercise st r = Except.ok (resp, st') ∧
        ∃ d ∈ list_exercises st' r.lesson_id,
          dGet d "lesson_id" = some (Val.str r.lesson_id) ∧
          dGet d "type" = some (Val.str r.type) ∧
          dGet d "prompt" = some (Val.str r.prompt) ∧
          dGet d "options" = some (match r.options with
            | some l => Val.strList l
            | none => Val.null) ∧
          dGet d "answer" = some (Val.str r.answer)) := by
  constructor
  · intro st r h
    simp [create_exercise, h]
  · intro st r h
    have hce : create_exercise st r = Except.ok
        ((("id", Val.str (oidStr st.nextId)) :: dumpExerciseReq r),
         { st with exercise := insertDoc st.exercise st.nextId (dumpExerciseReq r),
                   nextId := st.nextId + 1 }) := by
      simp [create_exercise, h]
    refine ⟨_, _, hce, ?_⟩
    have hm : docMatches (dumpExerciseReq r ++ [("_id", Val.oid st.nextId)])
        [("lesson_id", Val.str r.lesson_id)] = true := by
      simp [docMatches, dumpExerciseReq, dGet]
    refine ⟨shapeDoc (dumpExerciseReq r ++ [("_id", Val.oid st.nextId)]),
      ?_, ?_, ?_, ?_, ?_, ?_⟩
    · show shapeDoc _ ∈ list_exercises _ r.lesson_id
      simp only [list_exercises, insertDoc]
      rw [findAll_append]
      rw [List.map_append]
      apply List.mem_append_right
      apply List.mem_map_of_mem
      simp [findAll, List.filter, hm]
    · simp [shapeDoc, dumpExerciseReq, dGet]
    · simp [shapeDoc, dumpExerciseReq, dGet]
    · simp [shapeDoc, dumpExerciseReq, dGet]
    · simp [shapeDoc, dumpExerciseReq, dGet]
    · simp [shapeDoc, dumpExerciseReq, dGet]

/-- Witness for C4: the type "listening" is rejected, while an mcq request
is inserted and listed back with its fields. -/
theorem create_exercise_type_check_witness :
    create_exercise emptyStore ⟨"L1", "listening", "p", none, "a"⟩ =
      Except.error ⟨400, "Invalid exercise type"⟩ ∧
    (∃ (resp : Doc) (st' : Store),
      create_exercise emptyStore ⟨"L1", "mcq", "p", some ["a", "b"], "a"⟩ =
        Except.ok (resp, st') ∧
      ∃ d ∈ list_exercises st' "L1",
        dGet d "lesson_id" = some (Val.str "L1") ∧
        dGet d "type" = some (Val.str "mcq") ∧
        dGet d "prompt" = some (Val.str "p") ∧
        dGet d "options" = some (Val.strList ["a", "b"]) ∧
        dGet d "answer" = some (Val.str "a")) :=
  ⟨create_exercise_type_check.1 emptyStore ⟨"L1", "listening", "p", none, "a"⟩ (by decide),
   create_exercise_type_check.2 emptyStore ⟨"L1", "mcq", "p", some ["a", "b"], "a"⟩ (by decide)⟩

theorem shapeDoc_spec (o : Doc) (n : Nat)
    (h1 : dGet o "_id" = some (Val.oid n)) (h2 : dGet o "id" = none) :
    dGet (shapeDoc o) "_id" = none ∧
    dGet (shapeDoc o) "id" = some (Val.str (oidStr n)) ∧
    (∀ k, k ≠ "_id" → k ≠ "id" → dGet (shapeDoc o) k = dGet o k) := by
  refine ⟨?_, ?_, ?_⟩
  · unfold shapeDoc
    rw [dGet_append_of_none _ (dGet_filter_id o)]
    simp [dGet]
  · unfold shapeDoc
    have hf : dGet (o.filter fun kv => !(kv.1 == "_id")) "id" = none := by
      rw [dGet_filter_not_id (by decide)]
      exact h2
    rw [dGet_append_of_none _ hf]
    simp [dGet, h1, pyStr]
  · intro k hk1 hk2
    unfold shapeDoc
    cases hok : dGet o k with
    | some v =>
      rw [dGet_append_of_some _ (by rw [dGet_filter_not_id hk1]; exact hok)]
    | none =>
      rw [dGet_append_of_none _ (by rw [dGet_filter_not_id hk1]; exact hok)]
      rw [dGet, if_neg (fun h => hk2 h.symm)]
      rfl

theorem shaped_mem_spec {coll : List Doc} {f : Doc} {d : Doc}
    (hd : d ∈ (findAll coll f).map shapeDoc)
    (hwf : ∀ o ∈ coll, wfDoc o) :
    dGet d "_id" = none ∧
    ∃ (o : Doc) (n : Nat), o ∈ coll ∧ dGet o "_id" = some (Val.oid n) ∧
      dGet d "id" = some (Val.str (oidStr n)) ∧
      (∀ k, k ≠ "_id" → k ≠ "id" → dGet d k = dGet o k) := by
  obtain ⟨o, ho, rfl⟩ := List.mem_map.mp hd
  have hoc : o ∈ coll := List.mem_of_mem_filter ho
  obtain ⟨⟨n, h1⟩, h2⟩ := hwf o hoc
  obtain ⟨p1, p2, p3⟩ := shapeDoc_spec o n h1 h2
  exact ⟨p1, o, n, hoc, h1, p2, p3⟩

/-- C5: every document returned by the three list endpoints has its raw
`_id` key removed, carries `id` holding the string rendering of the
originating document's internal identifier, and agrees with the original
document on every other field. -/
theorem list_endpoints_shape (st : Store) (cid lid : String) (d : Doc)
    (hd : (d ∈ list_courses st ∧ ∀ o ∈ st.course, wfDoc o) ∨
          (d ∈ list_lessons st cid ∧ ∀ o ∈ st.lesson, wfDoc o) ∨
          (d ∈ list_exercises st lid ∧ ∀ o ∈ st.exercise, wfDoc o)) :
    dGet d "_id" = none ∧
    ∃ (o : Doc) (n : Nat),
      (o ∈ st.course ∨ o ∈ st.lesson ∨ o ∈ st.exercise) ∧
      dGet o "_id" = some (Val.oid n) ∧
      dGet d "id" = some (Val.str (oidStr n)) ∧
      (∀ k, k ≠ "_id" → k ≠ "id" → dGet d k = dGet o k) := by
  rcases hd with ⟨hm, hwf⟩ | ⟨hm, hwf⟩ | ⟨hm, hwf⟩
  · obtain ⟨p1, o, n, hoc, rest⟩ := shaped_mem_spec hm hwf
    exact ⟨p1, o, n, Or.inl hoc, rest⟩
  · obtain ⟨p1, o, n, hoc, rest⟩ := shaped_mem_spec hm hwf
    exact ⟨p1, o, n, Or.inr (Or.inl hoc), rest⟩
  · obtain ⟨p1, o, n, hoc, rest⟩ := shaped_mem_spec hm hwf
    exact ⟨p1, o, n, Or.inr (Or.inr hoc), rest⟩

/-- Witness for C5: the course listed from the seeded store carries `id`
"0...0" and no `_id` key. -/
theorem list_endpoints_shape_witness :
    dGet (shapeDoc (courseFixture ++ [("_id", Val.oid 0)])) "_id" = none ∧
    ∃ (o : Doc) (n : Nat),
      (o ∈ demoStore.course ∨ o ∈ demoStore.lesson ∨ o ∈ demoStore.exercise) ∧
      dGet o "_id" = some (Val.oid n) ∧
      dGet (shapeDoc (courseFixture ++ [("_id", Val.oid 0)])) "id" =
        some (Val.str (oidStr n)) ∧
      (∀ k, k ≠ "_id" → k ≠ "id" →
        dGet (shapeDoc (courseFixture ++ [("_id", Val.oid 0)])) k = dGet o k) := by
  have hcourse : demoStore.course = [courseFixture ++ [("_id", Val.oid 0)]] := by decide
  have hwf : ∀ o ∈ demoStore.course, wfDoc o := by
    intro o ho
    rw [hcourse] at ho
    rw [List.mem_singleton] at ho
    subst ho
    exact ⟨⟨0, by decide⟩, by decide⟩
  have hmem : shapeDoc (courseFixture ++ [("_id", Val.oid 0)]) ∈ list_courses demoStore := by
    decide
  exact list_endpoints_shape demoStore "c" "l"
    (shapeDoc (courseFixture ++ [("_id", Val.oid 0)])) (Or.inl ⟨hmem, hwf⟩)

/-- C9: the stored user document and the response carry exactly the fields
username, name (null when omitted), xp and streak (plus the identifier),
with xp = 0 and streak = 0 always; request decoding factors through the
`username` and `name` fields only, so any other client-supplied field
(email, an initial xp or streak, ...) is ignored. -/
theorem create_user_fixed_fields (st : Store) (body : Doc) (req : CreateUserReq)
    (hp : parseCreateUserReq body = some req) :
    (∃ d : Doc,
      (create_user st req).2.user = st.user ++ [d] ∧
      d.map Prod.fst = ["username", "name", "xp", "streak", "_id"] ∧
      dGet d "username" = some (Val.str req.username) ∧
      dGet d "name" = some (match req.name with
        | some nm => Val.str nm
        | none => Val.null) ∧
      dGet d "xp" = some (Val.int 0) ∧
      dGet d "streak" = some (Val.int 0)) ∧
    ((create_user st req).1.map Prod.fst = ["id", "username", "name", "xp", "streak"] ∧
     dGet (create_user st req).1 "xp" = some (Val.int 0) ∧
     dGet (create_user st req).1 "streak" = some (Val.int 0)) ∧
    (∀ body2 : Doc,
      dGet body2 "username" = dGet body "username" →
      dGet body2 "name" = dGet body "name" →
      parseCreateUserReq body2 = some req) := by
  refine ⟨⟨[("username", Val.str req.username),
      ("name", match req.name with
        | some nm => Val.str nm
        | none => Val.null),
      ("xp", Val.int 0), ("streak", Val.int 0), ("_id", Val.oid st.nextId)],
      ?_, ?_, ?_, ?_, ?_, ?_⟩, ⟨?_, ?_, ?_⟩, ?_⟩
  · simp [create_user, insertDoc]
  · rfl
  · simp [dGet]
  · simp [dGet]
  · simp [dGet]
  · simp [dGet]
  · rfl
  · simp [create_user, dGet]
  · simp [create_user, dGet]
  · intro body2 h1 h2
    unfold parseCreateUserReq at hp ⊢
    rw [h1, h2]
    exact hp

/-- Witness for C9: a body that also supplies email, xp = 99 and streak = 5
decodes to just the username, and the stored document still has xp = 0 and
streak = 0. -/
theorem create_user_fixed_fields_witness :
    (∃ d : Doc,
      (create_user emptyStore ⟨"ana", none⟩).2.user = emptyStore.user ++ [d] ∧
      d.map Prod.fst = ["username", "name", "xp", "streak", "_id"] ∧
      dGet d "username" = some (Val.str "ana") ∧
      dGet d "name" = some Val.null ∧
      dGet d "xp" = some (Val.int 0) ∧
      dGet d "streak" = some (Val.int 0)) ∧
    ((create_user emptyStore ⟨"ana", none⟩).1.map Prod.fst =
        ["id", "username", "name", "xp", "streak"] ∧
     dGet (create_user emptyStore ⟨"ana", none⟩).1 "xp" = some (Val.int 0) ∧
     dGet (create_user emptyStore ⟨"ana", none⟩).1 "streak" = some (Val.int 0)) ∧
    (∀ body2 : Doc,
      dGet body2 "username" = dGet wUserBody "username" →
      dGet body2 "name" = dGet wUserBody "name" →
      parseCreateUserReq body2 = some ⟨"ana", none⟩) :=
  create_user_fixed_fields emptyStore wUserBody ⟨"ana", none⟩ (by decide)

theorem strTake_length_le (s : String) (n : Nat) : (strTake s n).length ≤ n := by
  show (s.data.take n).length ≤ n
  rw [List.length_take]
  exact Nat.min_le_left _ _

/-- C6: the diagnostics endpoint is a total function of its environment (no
exception escapes); a store error is rendered as a status string holding at
most 50 characters of the error text, the reported collections are capped
at the first 10 names, the backend field is constant, and the two
environment fields are a function of set/not-set alone. -/
theorem test_database_diagnostics (e : DiagEnv) :
    (test_database e).backend = "✅ Running" ∧
    (test_database e).collections.length ≤ 10 ∧
    (test_database e).database_url =
      Val.str (if envTruthy e.database_url_env then "✅ Set" else "❌ Not Set") ∧
    (test_database e).database_name =
      Val.str (if envTruthy e.database_name_env then "✅ Set" else "❌ Not Set") ∧
    (∀ (h : DbHandle) (msg : String), e.db = some h →
      h.listCollectionNames = Except.error msg →
      (test_database e).database = "⚠️  Connected but Error: " ++ strTake msg 50 ∧
      (strTake msg 50).length ≤ 50) ∧
    (∀ (h : DbHandle) (names : List String), e.db = some h →
      h.listCollectionNames = Except.ok names →
      (test_database e).collections = names.take 10) := by
  rcases e with ⟨db, url, nm⟩
  cases db with
  | none =>
      refine ⟨rfl, by simp [test_database], rfl, rfl, ?_, ?_⟩
      · intro h msg hdb
        simp at hdb
      · intro h names hdb
        simp at hdb
  | some h =>
      cases hl : h.listCollectionNames with
      | ok names =>
          refine ⟨?_, ?_, ?_, ?_, ?_, ?_⟩
          · simp [test_database, hl]
          · simp [test_database, hl, List.length_take]
          · simp [test_database, hl]
          · simp [test_database, hl]
          · intro h' msg hdb hl'
            simp at hdb
            subst hdb
            rw [hl] at hl'
            cases hl'
          · intro h' names' hdb hl'
            simp at hdb
            subst hdb
            rw [hl] at hl'
            cases hl'
            simp [test_database, hl]
      | error msg =>
          refine ⟨?_, ?_, ?_, ?_, ?_, ?_⟩
          · simp [test_database, hl]
          · simp [test_database, hl]
          · simp [test_database, hl]
          · simp [test_database, hl]
          · intro h' msg' hdb hl'
            simp at hdb
            subst hdb
            rw [hl] at hl'
            cases hl'
            exact ⟨by simp [test_database, hl], strTake_length_le _ _⟩
          · intro h' names hdb hl'
            simp at hdb
            subst hdb
            rw [hl] at hl'
            cases hl'

/-- Witness for C6: with a raising store handle the endpoint still answers,
reporting the truncated error and only set/not-set for the environment. -/
theorem test_database_diagnostics_witness :
    (test_database wDiagEnv).backend = "✅ Running" ∧
    (test_database wDiagEnv).database =
      "⚠️  Connected but Error: " ++ strTake "boom" 50 ∧
    (strTake "boom" 50).length ≤ 50 ∧
    (test_database wDiagEnv).database_url = Val.str "✅ Set" ∧
    (test_database wDiagEnv).database_name = Val.str "❌ Not Set" := by
  have h := test_database_diagnostics wDiagEnv
  obtain ⟨hdb, -⟩ := h.2.2.2.2.1 ⟨some "appdb", Except.error "boom"⟩ "boom" rfl rfl
  exact ⟨h.1, hdb, strTake_length_le _ _, h.2.2.1, h.2.2.2.1⟩

theorem seedCourse_lesson (st : Store) : (seedCourse st).2.lesson = st.lesson := by
  unfold seedCourse
  cases findOne st.course [("code", Val.str "es")] <;> rfl

theorem seedCourse_exercise (st : Store) : (seedCourse st).2.exercise = st.exercise := by
  unfold seedCourse
  cases findOne st.course [("code", Val.str "es")] <;> rfl

theorem seedLesson_course (cid : Nat) (st : Store) :
    (seedLesson cid st).2.course = st.course := by
  unfold seedLesson
  cases findOne st.lesson [("course_id", Val.str (oidStr cid)), ("order", Val.int 1)] <;> rfl

theorem seedLesson_exercise (cid : Nat) (st : Store) :
    (seedLesson cid st).2.exercise = st.exercise := by
  unfold seedLesson
  cases findOne st.lesson [("course_id", Val.str (oidStr cid)), ("order", Val.int 1)] <;> rfl

theorem seedExercises_course (lid : Nat) (st : Store) :
    (seedExercises lid st).course = st.course := by
  unfold seedExercises
  split <;> rfl

theorem seedExercises_lesson (lid : Nat) (st : Store) :
    (seedExercises lid st).lesson = st.lesson := by
  unfold seedExercises
  split <;> rfl

theorem seedCourse_stable (st st2 : Store)
    (h : st2.course = (seedCourse st).2.course) :
    seedCourse st2 = ((seedCourse st).1, st2) := by
  cases hf : findOne st.course [("code", Val.str "es")] with
  | some c =>
      have h2 : st2.course = st.course := by
        simpa [seedCourse, hf] using h
      have hfind : findOne st2.course [("code", Val.str "es")] = some c := by
        rw [h2, hf]
      simp [seedCourse, hfind, hf]
  | none =>
      have h2 : st2.course = st.course ++ [courseFixture ++ [("_id", Val.oid st.nextId)]] := by
        simpa [seedCourse, hf, insertDoc] using h
      have hm : docMatches (courseFixture ++ [("_id", Val.oid st.nextId)])
          [("code", Val.str "es")] = true := by
        simp [docMatches, courseFixture, dGet]
      have hfind : findOne st2.course [("code", Val.str "es")] =
          some (courseFixture ++ [("_id", Val.oid st.nextId)]) := by
        rw [h2, findOne_append_of_none _ hf, findOne_singleton_of_matches hm]
      have hgo : getOid (courseFixture ++ [("_id", Val.oid st.nextId)]) = st.nextId := by
        simp [getOid, courseFixture, dGet]
      simp [seedCourse, hfind, hf, hgo]

theorem seedLesson_stable (cid : Nat) (st st2 : Store)
    (h : st2.lesson = (seedLesson cid st).2.lesson) :
    seedLesson cid st2 = ((seedLesson cid st).1, st2) := by
  cases hf : findOne st.lesson [("course_id", Val.str (oidStr cid)), ("order", Val.int 1)] with
  | some l =>
      have h2 : st2.lesson = st.lesson := by
        simpa [seedLesson, hf] using h
      have hfind : findOne st2.lesson
          [("course_id", Val.str (oidStr cid)), ("order", Val.int 1)] = some l := by
        rw [h2, hf]
      simp [seedLesson, hfind, hf]
  | none =>
      have h2 : st2.lesson = st.lesson ++ [lessonFixture cid ++ [("_id", Val.oid st.nextId)]] := by
        simpa [seedLesson, hf, insertDoc] using h
      have hm : docMatches (lessonFixture cid ++ [("_id", Val.oid st.nextId)])
          [("course_id", Val.str (oidStr cid)), ("order", Val.int 1)] = true := by
        simp [docMatches, lessonFixture, dGet]
      have hfind : findOne st2.lesson
          [("course_id", Val.str (oidStr cid)), ("order", Val.int 1)] =
          some (lessonFixture cid ++ [("_id", Val.oid st.nextId)]) := by
        rw [h2, findOne_append_of_none _ hf, findOne_singleton_of_matches hm]
      have hgo : getOid (lessonFixture cid ++ [("_id", Val.oid st.nextId)]) = st.nextId := by
        simp [getOid, lessonFixture, dGet]
      simp [seedLesson, hfind, hf, hgo]

theorem countDocs_singleton_of_matches {d f : Doc} (h : docMatches d f = true) :
    countDocs [d] f = 1 := by
  unfold countDocs findAll
  rw [List.filter_cons]
  simp [h]

theorem seedExercises_stable (lid : Nat) (st st2 : Store)
    (h : st2.exercise = (seedExercises lid st).exercise) :
    seedExercises lid st2 = st2 := by
  by_cases hc : countDocs st.exercise [("lesson_id", Val.str (oidStr lid))] = 0
  · have h2 : st2.exercise =
        (st.exercise ++ [exFixture1 lid ++ [("_id", Val.oid st.nextId)]]) ++
          [exFixture2 lid ++ [("_id", Val.oid (st.nextId + 1))]] := by
      simpa [seedExercises, hc, insertDoc] using h
    have hm1 : docMatches (exFixture1 lid ++ [("_id", Val.oid st.nextId)])
        [("lesson_id", Val.str (oidStr lid))] = true := by
      simp [docMatches, exFixture1, dGet]
    have hm2 : docMatches (exFixture2 lid ++ [("_id", Val.oid (st.nextId + 1))])
        [("lesson_id", Val.str (oidStr lid))] = true := by
      simp [docMatches, exFixture2, dGet]
    have hcount : countDocs st2.exercise [("lesson_id", Val.str (oidStr lid))] = 2 := by
      rw [h2, countDocs_append, countDocs_append, hc,
        countDocs_singleton_of_matches hm1, countDocs_singleton_of_matches hm2]
    simp [seedExercises, hcount]
  · have h2 : st2.exercise = st.exercise := by
      simpa [seedExercises, hc] using h
    have hcount : ¬ countDocs st2.exercise [("lesson_id", Val.str (oidStr lid))] = 0 := by
      rw [h2]
      exact hc
    simp [seedExercises, hcount]

theorem seed_demo_eq (st : Store) :
    seed_demo st =
      (⟨true, oidStr (seedCourse st).1,
        oidStr (seedLesson (seedCourse st).1 (seedCourse st).2).1⟩,
       seedExercises (seedLesson (seedCourse st).1 (seedCourse st).2).1
         (seedLesson (seedCourse st).1 (seedCourse st).2).2) := rfl

/-- C3: the seeder is sequentially idempotent — a second call returns the
same response and leaves the store unchanged (inserting no course, lesson
or exercise), and seeding the empty store twice leaves exactly one course
with code "es", one lesson on that course with order 1, and two exercises
under that lesson. -/
theorem seed_demo_idempotent :
    (∀ st : Store, seed_demo (seed_demo st).2 = seed_demo st) ∧
    countDocs (seed_demo (seed_demo emptyStore).2).2.course
      [("code", Val.str "es")] = 1 ∧
    countDocs (seed_demo (seed_demo emptyStore).2).2.lesson
      [("course_id", Val.str (seed_demo (seed_demo emptyStore).2).1.course_id),
       ("order", Val.int 1)] = 1 ∧
    countDocs (seed_demo (seed_demo emptyStore).2).2.exercise
      [("lesson_id", Val.str (seed_demo (seed_demo emptyStore).2).1.lesson_id)] = 2 := by
  refine ⟨?_, by decide, by decide, by decide⟩
  intro st
  have hgoal : seed_demo st =
      (⟨true, oidStr (seedCourse st).1,
        oidStr (seedLesson (seedCourse st).1 (seedCourse st).2).1⟩,
       seedExercises (seedLesson (seedCourse st).1 (seedCourse st).2).1
         (seedLesson (seedCourse st).1 (seedCourse st).2).2) := rfl
  set C := seedCourse st with hCd
  set L := seedLesson C.1 C.2 with hLd
  set E := seedExercises L.1 L.2 with hEd
  have hC : seedCourse E = (C.1, E) := by
    apply seedCourse_stable st E
    show (seedExercises L.1 L.2).course = (seedCourse st).2.course
    rw [seedExercises_course]
    show (seedLesson C.1 C.2).2.course = (seedCourse st).2.course
    rw [seedLesson_course]
  have hL2 : seedLesson C.1 E = (L.1, E) := by
    apply seedLesson_stable C.1 C.2 E
    show (seedExercises L.1 L.2).lesson = (seedLesson C.1 C.2).2.lesson
    rw [seedExercises_lesson]
  have hE2 : seedExercises L.1 E = E := by
    apply seedExercises_stable L.1 L.2 E
    rfl
  rw [hgoal]
  show seed_demo E = ((⟨true, oidStr C.1, oidStr L.1⟩ : SeedResp), E)
  rw [seed_demo_eq E, hC]
  show ((⟨true, oidStr C.1, oidStr (seedLesson C.1 E).1⟩ : SeedResp),
    seedExercises (seedLesson C.1 E).1 (seedLesson C.1 E).2) =
    ((⟨true, oidStr C.1, oidStr L.1⟩ : SeedResp), E)
  rw [hL2]
  show ((⟨true, oidStr C.1, oidStr L.1⟩ : SeedResp), seedExercises L.1 E) =
    ((⟨true, oidStr C.1, oidStr L.1⟩ : SeedResp), E)
  rw [hE2]

/-- C7: every seeder call answers seeded = true with the course and lesson
ids rendered as strings, whether the fixtures were created or reused. -/
theorem seed_response_unconditional :
    ∀ st : Store,
      (seed_demo st).1.seeded = true ∧
      ∃ (c l : Nat), (seed_demo st).1.course_id = oidStr c ∧
        (seed_demo st).1.lesson_id = oidStr l :=
  fun st =>
    ⟨rfl, (seedCourse st).1,
      (seedLesson (seedCourse st).1 (seedCourse st).2).1, rfl, rfl⟩

/-- C10: the seeder keys purely on the natural keys — any existing course
with code "es" is reused (no course insert, its id returned) regardless of
name or base_language, and any existing lesson with that course id and
order 1 is reused regardless of title. -/
theorem seed_demo_reuse (st : Store) (c : Doc) (n : Nat)
    (hc : findOne st.course [("code", Val.str "es")] = some c)
    (hid : dGet c "_id" = some (Val.oid n)) :
    ((seed_demo st).2.course = st.course ∧
     (seed_demo st).1.course_id = oidStr n) ∧
    (∀ (l : Doc) (m : Nat),
      findOne st.lesson [("course_id", Val.str (oidStr n)), ("order", Val.int 1)] = some l →
      dGet l "_id" = some (Val.oid m) →
      (seed_demo st).2.lesson = st.lesson ∧
      (seed_demo st).1.lesson_id = oidStr m) := by
  have hsc : seedCourse st = (n, st) := by
    simp [seedCourse, hc, getOid, hid]
  constructor
  · constructor
    · show (seedExercises _ _).course = st.course
      rw [seedExercises_course, seedLesson_course, hsc]
    · show oidStr (seedCourse st).1 = oidStr n
      rw [hsc]
  · intro l m hl hm
    have hsl : seedLesson n st = (m, st) := by
      simp [seedLesson, hl, getOid, hm]
    constructor
    · show (seedExercises _ _).lesson = st.lesson
      rw [seedExercises_lesson, hsc]
      show (seedLesson n st).2.lesson = st.lesson
      rw [hsl]
    · show oidStr (seedLesson (seedCourse st).1 (seedCourse st).2).1 = oidStr m
      rw [hsc]
      show oidStr (seedLesson n st).1 = oidStr m
      rw [hsl]

/-- Witness for C10: a French course with code "es" and an oddly titled
lesson of order 1 are both reused untouched by the seeder. -/
theorem seed_demo_reuse_witness :
    ((seed_demo wSeedStore).2.course = wSeedStore.course ∧
     (seed_demo wSeedStore).1.course_id = oidStr 7) ∧
    ((seed_demo wSeedStore).2.lesson = wSeedStore.lesson ∧
     (seed_demo wSeedStore).1.lesson_id = oidStr 9) := by
  have h := seed_demo_reuse wSeedStore wCourse 7 (by decide) (by decide)
  exact ⟨h.1, h.2 wLesson 9 (by decide) (by decide)⟩

end LangBackend
